import Mathlib

/-!
Shallow embedding of the policy-evaluation core of the repository:
the environment guard module (src/config/environments.ts) and the
agent decision router plus its cost-aware quota wrapper
(subscription-health-agent code, src/unnamed/part_003).

Machine integers do not overflow in any of this code (millisecond
timestamps and small counters), so they are modelled as Int / Nat.
The implicit clock (Date.now(), new Date().toDateString()) is made an
explicit parameter: `now` is the current epoch-millisecond instant and
`today` the current calendar-day identifier.
-/

namespace TestAi

/-! ## Case-insensitive regex matching

The two fixed pattern lists use JavaScript regexes of a restricted
shape: literal parts separated by `.*` gaps, with the `i` flag, where
every optional group such as `(s|ing)?` can match the empty string and
hence does not constrain matching.  Each regex therefore matches a
string iff (after ASCII lowercasing) its literal parts occur in order
within a single line of the string: `.` in JavaScript does not match
line terminators, the literal parts contain none, so any match lies
inside one line.  A pattern is modelled as its list of literal parts.
-/

/-- Suffix of `s` strictly after the first occurrence of `p`, or `none`
when `p` does not occur in `s`. -/
def dropAfterFirst (p : List Char) : List Char → Option (List Char)
  | [] => if p.isEmpty then some [] else none
  | c :: rest =>
      if p.isPrefixOf (c :: rest) then some ((c :: rest).drop p.length)
      else dropAfterFirst p rest

/-- Do the given literal parts occur in `s`, in order, left to right?
Greedy leftmost search is complete for existence of an ordered
occurrence. -/
def seqIn : List (List Char) → List Char → Bool
  | [], _ => true
  | p :: rest, s =>
      match dropAfterFirst p s with
      | some s' => seqIn rest s'
      | none => false

/-- Split a character list on line terminators. -/
def splitLines : List Char → List (List Char)
  | [] => [[]]
  | c :: rest =>
      let r := splitLines rest
      if c = '\n' ∨ c = '\r' then [] :: r
      else
        match r with
        | [] => [[c]]
        | l :: ls => (c :: l) :: ls

/-- ASCII lowercasing of one character, the effect of the regex
case-insensitivity flag on the ASCII-only patterns in use. -/
def asciiLower (c : Char) : Char :=
  if 'A' ≤ c ∧ c ≤ 'Z' then Char.ofNat (c.toNat + 32) else c

/-- Does the regex with literal `parts` separated by dot-star gaps,
with the case-insensitivity flag, match `q`? -/
def matchesPattern (parts : List String) (q : String) : Bool :=
  (splitLines (q.toList.map asciiLower)).any (fun line => seqIn (parts.map String.toList) line)

/-- Does `q` match at least one pattern of the list? -/
def matchesAnyPattern (patterns : List (List String)) (q : String) : Bool :=
  patterns.any (fun p => matchesPattern p q)

/-- Is `sub` a contiguous substring of `s` (case sensitive)? -/
def containsStr (s sub : String) : Bool :=
  (dropAfterFirst sub.toList s.toList).isSome

/-! ## Environment guard (src/config/environments.ts) -/

inductive Environment
  | staging
  | production
deriving DecidableEq, Repr

/-- Printed name of an environment, as interpolated into messages. -/
def envName : Environment → String
  | .staging => "staging"
  | .production => "production"

structure EnvironmentConfig where
  name : Environment
  baseUrl : String
  allowWriteOperations : Bool
  allowDataCreation : Bool
  allowFormSubmission : Bool
  maxTestTimeout : Nat
  retries : Nat
deriving DecidableEq, Repr

/-- The configuration table `environments` of src/config/environments.ts. -/
def environments : Environment → EnvironmentConfig
  | .staging =>
      { name := .staging
        baseUrl := "https://www.mailsubscriptions.co.uk"
        allowWriteOperations := true
        allowDataCreation := true
        allowFormSubmission := true
        maxTestTimeout := 60000
        retries := 2 }
  | .production =>
      { name := .production
        baseUrl := "https://www.mailsubscriptions.co.uk"
        allowWriteOperations := false
        allowDataCreation := false
        allowFormSubmission := false
        maxTestTimeout := 30000
        retries := 1 }

inductive Action
  | write
  | create
  | submit
deriving DecidableEq, Repr

/-- Printed name of an action, as interpolated into messages. -/
def actionName : Action → String
  | .write => "write"
  | .create => "create"
  | .submit => "submit"

/-- The function `getCurrentEnvironment`.  The external input
`process.env.ENVIRONMENT` is `none` when the variable is unset.  The
JavaScript expression `process.env.ENVIRONMENT || (staging)` replaces
an unset or empty (falsy) value by the default string before the
validity check runs.  The second component counts `console.warn`
calls emitted by the invocation. -/
def getCurrentEnvironment (envVar : Option String) : Environment × Nat :=
  let env : String :=
    match envVar with
    | some s => if s = "" then "staging" else s
    | none => "staging"
  if env = "staging" then (.staging, 0)
  else if env = "production" then (.production, 0)
  else (.staging, 1)

/-- The function `isActionAllowed`, with the ambient resolved
environment made an explicit argument. -/
def isActionAllowed (env : Environment) (action : Action) : Bool :=
  let config := environments env
  match action with
  | .write => config.allowWriteOperations
  | .create => config.allowDataCreation
  | .submit => config.allowFormSubmission

/-- The function `assertActionAllowed`: a thrown `Error` is modelled as
`Except.error` carrying the message string, a normal return as
`Except.ok ()`. -/
def assertActionAllowed (env : Environment) (action : Action) : Except String Unit :=
  if !(isActionAllowed env action) then
    Except.error
      ("SAFETY BLOCK: Action \"" ++ actionName action ++ "\" is not allowed in "
        ++ envName env ++ " environment")
  else
    Except.ok ()

/-! ## Decision router (shouldUseBrowserAutomation, src/unnamed/part_003) -/

inductive Urgency
  | low
  | medium
  | high
deriving DecidableEq, Repr

/-- The optional context of an `AgentQuery`.  `lastCheckTimestamp` is
the parsed epoch-millisecond value of the ISO timestamp string; `none`
covers the field being absent or falsy (the code guards it with a
truthiness check before use, and an unparseable value yields `NaN`,
which fails the subsequent comparison exactly as `none` falls through
here). -/
structure QueryContext where
  lastCheckTimestamp : Option Int
  cachedHealth : Option Bool
  urgency : Option Urgency
deriving DecidableEq, Repr

structure AgentQuery where
  question : String
  context : Option QueryContext
deriving DecidableEq, Repr

/-- Result of the router: `shouldUse` is the use-expensive-path flag. -/
structure RoutingDecision where
  shouldUse : Bool
  reason : String
deriving DecidableEq, Repr

/-- The list `BROWSER_REQUIRED_PATTERNS`: work(s|ing)?, function(al|ing)?,
broken, check.*journey, test.*flow, validate, can.*subscribe,
can.*sign.*up, all case-insensitive, reduced to their literal parts. -/
def BROWSER_REQUIRED_PATTERNS : List (List String) :=
  [["work"], ["function"], ["broken"], ["check", "journey"], ["test", "flow"],
   ["validate"], ["can", "subscribe"], ["can", "sign", "up"]]

/-- The list `CACHE_SUFFICIENT_PATTERNS`: price, cost, how much, features,
what.*include, all case-insensitive, reduced to their literal parts. -/
def CACHE_SUFFICIENT_PATTERNS : List (List String) :=
  [["price"], ["cost"], ["how much"], ["features"], ["what", "include"]]

/-- The expression `context?.urgency` of the source. -/
def contextUrgency (query : AgentQuery) : Option Urgency :=
  query.context.bind QueryContext.urgency

/-- The expression `context?.lastCheckTimestamp` of the source (present
and truthy iff `some`). -/
def contextTimestamp (query : AgentQuery) : Option Int :=
  query.context.bind QueryContext.lastCheckTimestamp

/-- The test `context.cachedHealth !== undefined` of the source; this
is what the specification calls the cached result being available. -/
def cachedHealthDefined (query : AgentQuery) : Bool :=
  (query.context.bind QueryContext.cachedHealth).isSome

/-- JavaScript `Math.round (d / 60000)` for an integer millisecond
difference `d`: round half toward positive infinity. -/
def jsRoundMinutes (d : Int) : Int :=
  Int.ediv (2 * d + 60000) 120000

/-- The function `shouldUseBrowserAutomation`.  `now` is `Date.now()`.
The freshness test `minutesAgo < 5` with `minutesAgo = (now - last) / 60000`
in exact (floating-point) division is equivalent to
`now - last < 300000`. -/
def shouldUseBrowserAutomation (now : Int) (query : AgentQuery) : RoutingDecision :=
  if matchesAnyPattern CACHE_SUFFICIENT_PATTERNS query.question = true then
    { shouldUse := false
      reason := "Question can be answered from known data without browser check" }
  else if matchesAnyPattern BROWSER_REQUIRED_PATTERNS query.question = true then
    { shouldUse := true
      reason := "Question requires live validation of journey functionality" }
  else if contextUrgency query = some Urgency.high then
    { shouldUse := true
      reason := "High urgency requires fresh browser validation" }
  else
    match contextTimestamp query with
    | some last =>
        if now - last < 300000 ∧ cachedHealthDefined query = true then
          { shouldUse := false
            reason := "Recent check (" ++ toString (jsRoundMinutes (now - last))
              ++ " min ago) available" }
        else
          { shouldUse := true
            reason := "Default to browser check for authoritative answer" }
    | none =>
        { shouldUse := true
          reason := "Default to browser check for authoritative answer" }

/-! ## Cost-aware quota wrapper (costAwareAgent, src/unnamed/part_003) -/

/-- The mutable `costTracker` record.  `lastResetDay` models
`lastReset.toDateString()`: two instants compare equal iff they fall on
the same calendar day, so a day is a natural number identifier. -/
structure CostTracker where
  browserChecksToday : Nat
  maxBrowserChecksPerDay : Nat
  lastResetDay : Nat
deriving DecidableEq, Repr

/-- The reset-daily-counter preamble of `costAwareAgent`. -/
def resetIfNewDay (today : Nat) (t : CostTracker) : CostTracker :=
  if t.lastResetDay ≠ today then
    { t with browserChecksToday := 0, lastResetDay := today }
  else t

/-- One call of `costAwareAgent`, restricted to its routing and quota
behaviour: the returned Bool is the `usedBrowserAutomation` field of the
response and the String its `reasoning`.  The delegated
`subscriptionHealthAgent` sets `usedBrowserAutomation` to exactly the
decision of `shouldUseBrowserAutomation`, and the wrapper increments the
counter exactly when that flag is set; the produced answer text and
timing are outside the embedded claims. -/
def costAwareStep (today : Nat) (now : Int) (query : AgentQuery) (t0 : CostTracker) :
    CostTracker × Bool × String :=
  let t := resetIfNewDay today t0
  if t.browserChecksToday ≥ t.maxBrowserChecksPerDay then
    (t, false,
      "Daily limit of " ++ toString t.maxBrowserChecksPerDay ++ " browser checks reached")
  else
    let decision := shouldUseBrowserAutomation now query
    if decision.shouldUse then
      ({ t with browserChecksToday := t.browserChecksToday + 1 }, true, decision.reason)
    else
      (t, false, decision.reason)

/-! ## Helper lemmas -/

/-- A concatenation whose leftmost factor is a nonempty literal is a
nonempty string. -/
theorem concat3_ne_empty (a b c : String) (h : a.data ≠ []) : a ++ b ++ c ≠ "" := by
  intro hab
  have hd : a.data ++ b.data ++ c.data = [] := congrArg String.data hab
  exact h (List.append_eq_nil.mp (List.append_eq_nil.mp hd).1).1

/-- The router on the empty query with no context takes the default
branch, independent of the clock. -/
theorem router_empty_query (now : Int) :
    shouldUseBrowserAutomation now ⟨"", none⟩ =
      ⟨true, "Default to browser check for authoritative answer"⟩ := rfl

/-- Resetting on the same calendar day leaves the tracker unchanged. -/
theorem resetIfNewDay_same (d : Nat) (t : CostTracker) (h : t.lastResetDay = d) :
    resetIfNewDay d t = t := by
  unfold resetIfNewDay
  rw [if_neg (fun hc => hc h)]

/-- Resetting on a different calendar day zeroes the counter and moves
the window start. -/
theorem resetIfNewDay_diff (d : Nat) (t : CostTracker) (h : t.lastResetDay ≠ d) :
    resetIfNewDay d t = { t with browserChecksToday := 0, lastResetDay := d } := by
  unfold resetIfNewDay
  rw [if_pos h]

/-- Zeta-expanded equation for the wrapper step. -/
theorem costAwareStep_eq (today : Nat) (now : Int) (query : AgentQuery) (t0 : CostTracker) :
    costAwareStep today now query t0 =
      if (resetIfNewDay today t0).browserChecksToday ≥
          (resetIfNewDay today t0).maxBrowserChecksPerDay then
        (resetIfNewDay today t0, false,
          "Daily limit of " ++ toString (resetIfNewDay today t0).maxBrowserChecksPerDay
            ++ " browser checks reached")
      else if (shouldUseBrowserAutomation now query).shouldUse = true then
        ({ resetIfNewDay today t0 with
            browserChecksToday := (resetIfNewDay today t0).browserChecksToday + 1 },
          true, (shouldUseBrowserAutomation now query).reason)
      else
        (resetIfNewDay today t0, false, (shouldUseBrowserAutomation now query).reason) := rfl

/-! ## Claim theorems -/

/-- C1: for every Environment e and Action a, `isActionAllowed` under e
returns exactly the boolean field of the registered config of e that
corresponds to a (write to allowWriteOperations, create to
allowDataCreation, submit to allowFormSubmission), and all six
(environment, action) cases agree with the config table: all three
actions allowed in staging, none in production. -/
theorem isActionAllowed_matches_config_table :
    (∀ (e : Environment) (a : Action),
      isActionAllowed e a =
        (match a with
         | Action.write => (environments e).allowWriteOperations
         | Action.create => (environments e).allowDataCreation
         | Action.submit => (environments e).allowFormSubmission)) ∧
    isActionAllowed .staging .write = true ∧
    isActionAllowed .staging .create = true ∧
    isActionAllowed .staging .submit = true ∧
    isActionAllowed .production .write = false ∧
    isActionAllowed .production .create = false ∧
    isActionAllowed .production .submit = false := by
  refine ⟨fun e a => ?_, rfl, rfl, rfl, rfl, rfl, rfl⟩
  cases a <;> rfl

/-- C2: `assertActionAllowed a` fails exactly when `isActionAllowed a`
is false, and the raised message contains both the action name and the
resolved environment name; when the action is allowed it returns
normally. -/
theorem assertActionAllowed_iff_disallowed (env : Environment) (a : Action) :
    (isActionAllowed env a = true → assertActionAllowed env a = Except.ok ()) ∧
    (isActionAllowed env a = false →
      ∃ msg, assertActionAllowed env a = Except.error msg ∧
        containsStr msg (actionName a) = true ∧
        containsStr msg (envName env) = true) := by
  constructor
  · intro h
    unfold assertActionAllowed
    rw [h]
    rfl
  · intro h
    refine ⟨"SAFETY BLOCK: Action \"" ++ actionName a ++ "\" is not allowed in "
      ++ envName env ++ " environment", ?_, ?_, ?_⟩
    · unfold assertActionAllowed
      rw [h]
      rfl
    · cases a <;> cases env <;> decide
    · cases a <;> cases env <;> decide

/-- C2 witness: concrete instances of both directions, at
(production, submit) for the failing case and (staging, write) for the
passing case. -/
theorem assertActionAllowed_iff_disallowed_witness :
    assertActionAllowed Environment.staging Action.write = Except.ok () ∧
    ∃ msg, assertActionAllowed Environment.production Action.submit = Except.error msg ∧
      containsStr msg (actionName Action.submit) = true ∧
      containsStr msg (envName Environment.production) = true :=
  ⟨(assertActionAllowed_iff_disallowed Environment.staging Action.write).1 (by decide),
   (assertActionAllowed_iff_disallowed Environment.production Action.submit).2 (by decide)⟩

/-- C3 counterexample: on the empty string (and on an unset variable)
`getCurrentEnvironment` returns staging with zero warnings, not the
one warning the claim asserts: the JavaScript default-or expression
replaces a falsy value by the valid string before the check. -/
theorem getCurrentEnvironment_empty_counterexample :
    getCurrentEnvironment (some "") = (Environment.staging, 0) ∧
    getCurrentEnvironment none = (Environment.staging, 0) ∧
    (getCurrentEnvironment (some "")).2 ≠ 1 := by
  refine ⟨by decide, by decide, by decide⟩

/-- C3 amended: resolution returns production for the input string
production and staging for staging, each with no warning; an unset or
empty value resolves to staging with no warning; every other value
resolves to staging and emits exactly one warning. -/
theorem getCurrentEnvironment_resolution (s : String)
    (h1 : s ≠ "") (h2 : s ≠ "staging") (h3 : s ≠ "production") :
    getCurrentEnvironment (some "production") = (Environment.production, 0) ∧
    getCurrentEnvironment (some "staging") = (Environment.staging, 0) ∧
    getCurrentEnvironment none = (Environment.staging, 0) ∧
    getCurrentEnvironment (some "") = (Environment.staging, 0) ∧
    getCurrentEnvironment (some s) = (Environment.staging, 1) := by
  refine ⟨by decide, by decide, by decide, by decide, ?_⟩
  simp [getCurrentEnvironment, h1, h2, h3]

/-- C3 witness: the amended statement instantiated at the unknown
value bogus. -/
theorem getCurrentEnvironment_resolution_witness :
    getCurrentEnvironment (some "bogus") = (Environment.staging, 1) :=
  (getCurrentEnvironment_resolution "bogus" (by decide) (by decide) (by decide)).2.2.2.2

/-- C4: any query matching a cache-sufficient pattern is answered with
useExpensivePath false and the answerable-from-known-data reason, even
when it also matches a verification pattern: step 1 runs before
step 2.  The query about a broken price matches a pattern of both
lists and still resolves via the cache-sufficient list. -/
theorem cache_sufficient_checked_first (now : Int) (q : AgentQuery)
    (h : matchesAnyPattern CACHE_SUFFICIENT_PATTERNS q.question = true) :
    shouldUseBrowserAutomation now q =
      ⟨false, "Question can be answered from known data without browser check"⟩ ∧
    matchesAnyPattern CACHE_SUFFICIENT_PATTERNS "is the price broken" = true ∧
    matchesAnyPattern BROWSER_REQUIRED_PATTERNS "is the price broken" = true := by
  refine ⟨?_, by decide, by decide⟩
  unfold shouldUseBrowserAutomation
  rw [if_pos h]

/-- C4 witness: the double-matching query resolves via the
cache-sufficient branch. -/
theorem cache_sufficient_checked_first_witness :
    shouldUseBrowserAutomation 0 ⟨"is the price broken", none⟩ =
      ⟨false, "Question can be answered from known data without browser check"⟩ :=
  (cache_sufficient_checked_first 0 ⟨"is the price broken", none⟩ (by decide)).1

/-- C5 counterexample: the query about whether it is working, with a
three-minute-old check timestamp and a cached result available,
returns useExpensivePath true via the verification lexical branch, not
false as the claim asserts: the word working matches a verification
pattern and lexical matching runs before the freshness check. -/
theorem fresh_cache_three_minutes_counterexample :
    shouldUseBrowserAutomation 600000
        ⟨"is it working", some ⟨some 420000, some true, none⟩⟩ =
      ⟨true, "Question requires live validation of journey functionality"⟩ ∧
    (shouldUseBrowserAutomation 600000
        ⟨"is it working", some ⟨some 420000, some true, none⟩⟩).shouldUse ≠ false := by
  exact ⟨by decide, by decide⟩

/-- C5 amended: for the query about whether it is working, the router
returns useExpensivePath true with the verification reason for every
context, three-minute-old and ten-minute-old cached results alike,
because the lexical verification match is checked before freshness. -/
theorem router_working_query_lexical (now : Int) (ctx : Option QueryContext) :
    shouldUseBrowserAutomation now ⟨"is it working", ctx⟩ =
      ⟨true, "Question requires live validation of journey functionality"⟩ := rfl

/-- C6: on a query matching no lexical pattern whose context urgency is
not high, the router returns useExpensivePath false exactly when a
last-check timestamp is present, a cached result is available (the
cachedHealth field is defined), and the timestamp is under five
minutes old; the reason then cites the elapsed minutes, and in every
other such case the default branch answers. -/
theorem freshness_short_circuit (now : Int) (q : AgentQuery)
    (h1 : matchesAnyPattern CACHE_SUFFICIENT_PATTERNS q.question = false)
    (h2 : matchesAnyPattern BROWSER_REQUIRED_PATTERNS q.question = false)
    (h3 : contextUrgency q ≠ some Urgency.high) :
    ((shouldUseBrowserAutomation now q).shouldUse = false ↔
      ∃ last, contextTimestamp q = some last ∧ cachedHealthDefined q = true ∧
        now - last < 300000) ∧
    (∀ last, contextTimestamp q = some last → cachedHealthDefined q = true →
      now - last < 300000 →
      (shouldUseBrowserAutomation now q).reason =
        "Recent check (" ++ toString (jsRoundMinutes (now - last)) ++ " min ago) available") ∧
    ((shouldUseBrowserAutomation now q).shouldUse = true →
      (shouldUseBrowserAutomation now q).reason =
        "Default to browser check for authoritative answer") := by
  have E : shouldUseBrowserAutomation now q =
      (match contextTimestamp q with
       | some last =>
           if now - last < 300000 ∧ cachedHealthDefined q = true then
             { shouldUse := false
               reason := "Recent check (" ++ toString (jsRoundMinutes (now - last))
                 ++ " min ago) available" }
           else
             { shouldUse := true
               reason := "Default to browser check for authoritative answer" }
       | none =>
           { shouldUse := true
             reason := "Default to browser check for authoritative answer" }) := by
    unfold shouldUseBrowserAutomation
    rw [if_neg (by rw [h1]; exact Bool.false_ne_true),
      if_neg (by rw [h2]; exact Bool.false_ne_true), if_neg h3]
  rw [E]
  cases hts : contextTimestamp q with
  | none =>
      dsimp only
      refine ⟨⟨fun hc => absurd hc (by decide), ?_⟩, ?_, fun _ => rfl⟩
      · rintro ⟨l, hl, -, -⟩
        exact absurd hl (by simp)
      · intro l hl
        exact absurd hl (by simp)
  | some last =>
      dsimp only
      by_cases hcond : now - last < 300000 ∧ cachedHealthDefined q = true
      · rw [if_pos hcond]
        refine ⟨⟨fun _ => ⟨last, rfl, hcond.2, hcond.1⟩, fun _ => rfl⟩, ?_, ?_⟩
        · intro l hl _ _
          cases hl
          rfl
        · intro hc
          exact absurd hc Bool.false_ne_true
      · rw [if_neg hcond]
        refine ⟨⟨fun hc => absurd hc (by decide), ?_⟩, ?_, fun _ => rfl⟩
        · rintro ⟨l, hl, hch, hlt⟩
          cases hl
          exact absurd ⟨hlt, hch⟩ hcond
        · intro l hl hch hlt
          cases hl
          exact absurd ⟨hlt, hch⟩ hcond

/-- C6 witness: a pattern-free greeting with a two-minute-old cached
check returns useExpensivePath false and cites the two minutes. -/
theorem freshness_short_circuit_witness :
    (shouldUseBrowserAutomation 120000
      ⟨"hello", some ⟨some 0, some true, none⟩⟩).shouldUse = false ∧
    (shouldUseBrowserAutomation 120000
      ⟨"hello", some ⟨some 0, some true, none⟩⟩).reason =
        "Recent check (2 min ago) available" := by
  constructor
  · exact ((freshness_short_circuit 120000 ⟨"hello", some ⟨some 0, some true, none⟩⟩
      (by decide) (by decide) (by decide)).1).mpr ⟨0, by decide, by decide, by decide⟩
  · have h := (freshness_short_circuit 120000 ⟨"hello", some ⟨some 0, some true, none⟩⟩
      (by decide) (by decide) (by decide)).2.1 0 (by decide) (by decide) (by decide)
    rw [h]
    decide

/-- C7: the router is total by construction and always produces a
non-empty reason; the empty query with no context takes the default
branch with useExpensivePath true. -/
theorem router_total_nonempty_reason (now : Int) (q : AgentQuery) :
    (shouldUseBrowserAutomation now q).reason ≠ "" ∧
    shouldUseBrowserAutomation now ⟨"", none⟩ =
      ⟨true, "Default to browser check for authoritative answer"⟩ := by
  refine ⟨?_, router_empty_query now⟩
  unfold shouldUseBrowserAutomation
  repeat' split
  all_goals first
    | decide
    | exact concat3_ne_empty _ _ _ (by decide)

/-- C8: with the daily limit set to 2, three sequential expensive-path
attempts on one calendar day yield true, true, false, and a further
attempt on a different calendar day yields true again because the
counter is reset to zero when the current date differs from the window
start date.  The empty query drives every attempt through the default
expensive branch of the router. -/
theorem quota_sequence (now : Int) (d d' : Nat) (h : d ≠ d') :
    (costAwareStep d now ⟨"", none⟩ ⟨0, 2, d⟩).2.1 = true ∧
    (costAwareStep d now ⟨"", none⟩
      (costAwareStep d now ⟨"", none⟩ ⟨0, 2, d⟩).1).2.1 = true ∧
    (costAwareStep d now ⟨"", none⟩ (costAwareStep d now ⟨"", none⟩
      (costAwareStep d now ⟨"", none⟩ ⟨0, 2, d⟩).1).1).2.1 = false ∧
    (costAwareStep d' now ⟨"", none⟩ (costAwareStep d now ⟨"", none⟩
      (costAwareStep d now ⟨"", none⟩
        (costAwareStep d now ⟨"", none⟩ ⟨0, 2, d⟩).1).1).1).2.1 = true := by
  have e1 : costAwareStep d now ⟨"", none⟩ ⟨0, 2, d⟩ =
      (⟨1, 2, d⟩, true, "Default to browser check for authoritative answer") := by
    unfold costAwareStep
    rw [resetIfNewDay_same d ⟨0, 2, d⟩ rfl]
    rfl
  have e2 : costAwareStep d now ⟨"", none⟩ ⟨1, 2, d⟩ =
      (⟨2, 2, d⟩, true, "Default to browser check for authoritative answer") := by
    unfold costAwareStep
    rw [resetIfNewDay_same d ⟨1, 2, d⟩ rfl]
    rfl
  have e3 : costAwareStep d now ⟨"", none⟩ ⟨2, 2, d⟩ =
      (⟨2, 2, d⟩, false,
        "Daily limit of " ++ toString (2 : Nat) ++ " browser checks reached") := by
    unfold costAwareStep
    rw [resetIfNewDay_same d ⟨2, 2, d⟩ rfl]
    rfl
  have e4 : costAwareStep d' now ⟨"", none⟩ ⟨2, 2, d⟩ =
      (⟨1, 2, d'⟩, true, "Default to browser check for authoritative answer") := by
    unfold costAwareStep
    rw [resetIfNewDay_diff d' ⟨2, 2, d⟩ h]
    rfl
  refine ⟨?_, ?_, ?_, ?_⟩
  · rw [e1]
  · rw [e1]
    show (costAwareStep d now ⟨"", none⟩ (⟨1, 2, d⟩ : CostTracker)).2.1 = true
    rw [e2]
  · rw [e1]
    show (costAwareStep d now ⟨"", none⟩ (costAwareStep d now ⟨"", none⟩
      (⟨1, 2, d⟩ : CostTracker)).1).2.1 = false
    rw [e2]
    show (costAwareStep d now ⟨"", none⟩ (⟨2, 2, d⟩ : CostTracker)).2.1 = false
    rw [e3]
  · rw [e1]
    show (costAwareStep d' now ⟨"", none⟩ (costAwareStep d now ⟨"", none⟩
      (costAwareStep d now ⟨"", none⟩ (⟨1, 2, d⟩ : CostTracker)).1).1).2.1 = true
    rw [e2]
    show (costAwareStep d' now ⟨"", none⟩ (costAwareStep d now ⟨"", none⟩
      (⟨2, 2, d⟩ : CostTracker)).1).2.1 = true
    rw [e3]
    show (costAwareStep d' now ⟨"", none⟩ (⟨2, 2, d⟩ : CostTracker)).2.1 = true
    rw [e4]

/-- C8 witness: the sequence on day 0 with a fourth attempt on day 1. -/
theorem quota_sequence_witness :
    (costAwareStep 0 0 ⟨"", none⟩ ⟨0, 2, 0⟩).2.1 = true ∧
    (costAwareStep 0 0 ⟨"", none⟩
      (costAwareStep 0 0 ⟨"", none⟩ ⟨0, 2, 0⟩).1).2.1 = true ∧
    (costAwareStep 0 0 ⟨"", none⟩ (costAwareStep 0 0 ⟨"", none⟩
      (costAwareStep 0 0 ⟨"", none⟩ ⟨0, 2, 0⟩).1).1).2.1 = false ∧
    (costAwareStep 1 0 ⟨"", none⟩ (costAwareStep 0 0 ⟨"", none⟩
      (costAwareStep 0 0 ⟨"", none⟩
        (costAwareStep 0 0 ⟨"", none⟩ ⟨0, 2, 0⟩).1).1).1).2.1 = true :=
  quota_sequence 0 0 1 (by decide)

/-- C9: the wrapper only ever downgrades the router: when the router
decides against the expensive path the wrapped call never uses browser
automation, and when the daily limit has been reached within the
current window the wrapped call is forced onto the cheap path with the
daily-limit reason regardless of the router decision. -/
theorem quota_wrapper_downgrade_only (today : Nat) (now : Int) (q : AgentQuery)
    (t : CostTracker) :
    ((shouldUseBrowserAutomation now q).shouldUse = false →
      (costAwareStep today now q t).2.1 = false) ∧
    ((costAwareStep today now q t).2.1 = true →
      (shouldUseBrowserAutomation now q).shouldUse = true) ∧
    (t.lastResetDay = today → t.browserChecksToday ≥ t.maxBrowserChecksPerDay →
      (costAwareStep today now q t).2.1 = false ∧
      (costAwareStep today now q t).2.2 =
        "Daily limit of " ++ toString t.maxBrowserChecksPerDay
          ++ " browser checks reached") := by
  have part1 : (shouldUseBrowserAutomation now q).shouldUse = false →
      (costAwareStep today now q t).2.1 = false := by
    intro h
    rw [costAwareStep_eq]
    by_cases hl : (resetIfNewDay today t).browserChecksToday ≥
        (resetIfNewDay today t).maxBrowserChecksPerDay
    · rw [if_pos hl]
    · rw [if_neg hl, if_neg (by rw [h]; exact Bool.false_ne_true)]
  refine ⟨part1, ?_, ?_⟩
  · intro h
    by_cases hs : (shouldUseBrowserAutomation now q).shouldUse = true
    · exact hs
    · have hf : (shouldUseBrowserAutomation now q).shouldUse = false := by
        revert hs
        cases (shouldUseBrowserAutomation now q).shouldUse <;> simp
      rw [part1 hf] at h
      exact absurd h Bool.false_ne_true
  · intro hd hl
    rw [costAwareStep_eq, resetIfNewDay_same today t hd, if_pos hl]
    exact ⟨rfl, rfl⟩

/-- C9 witness: a cache-answerable query under the wrapper does not use
browser automation. -/
theorem quota_wrapper_downgrade_only_witness :
    (costAwareStep 0 0 ⟨"price", none⟩ ⟨0, 2, 0⟩).2.1 = false :=
  (quota_wrapper_downgrade_only 0 0 ⟨"price", none⟩ ⟨0, 2, 0⟩).1 (by decide)

/-- C10: the staging and production configs carry the identical
baseUrl, the mailsubscriptions host, so environment selection never
changes the target host. -/
theorem environments_same_baseUrl :
    (environments .staging).baseUrl = (environments .production).baseUrl ∧
    (environments .staging).baseUrl = "https://www.mailsubscriptions.co.uk" :=
  ⟨rfl, rfl⟩

end TestAi
